import Mathlib

/-!
Shallow embedding of the concurrent acquisition-and-control core of
`CLI/dsi2lsl.c` (Wearable Sensing DSI → LSL bridge), together with theorems
settling the specification's claims about it.

Conventions used throughout:
* C `volatile int` flags that only ever hold 0/1 are modelled as `Bool`.
* The DSI API's global error cell (set by `DSI_*` calls, tested by
  `DSI_Error()`, reported-and-cleared by `DSI_ClearError()` inside
  `CheckError()`) is threaded explicitly.  Whether a given device call raises
  an error is an input of the model (`errStart`, `errStop`, ...).
* Sample values are carried by `Int`; the claims under study concern buffer
  length, ordering and allocation, all of which are value-agnostic, so the
  numeric type of a reading is irrelevant to the statements.
-/

namespace Dsi2Lsl

/-- The impedance request flags of the `ThreadParams` struct
(`dsi2lsl.c` lines 61-66).  `printFlag` is initialised to 0 and the code that
would read it is commented out, so it is omitted from the model. -/
structure ZFlags where
  startFlag : Bool
  stopFlag : Bool
deriving DecidableEq, Repr

/-- Device impedance-driver configuration calls issued by the impedance
worker thread: `DSI_Headset_StartImpedanceDriver` (reached through
`CheckImpedance`, lines 297-316) and `DSI_Headset_StopImpedanceDriver`
(line 118). -/
inductive ImpAction where
  | startImpedanceDriver
  | stopImpedanceDriver
deriving DecidableEq, Repr

/-- Observable outcome of one iteration of the `ImpedanceThread` loop body
(`dsi2lsl.c` lines 108-127). -/
structure ImpCycleResult where
  /-- The flag state when the iteration is over. -/
  flags : ZFlags
  /-- Impedance-driver calls performed, in program order. -/
  actions : List ImpAction
  /-- Number of error reports printed by `CheckError()` (which also clears
  the DSI error cell). -/
  errorLogs : Nat
  /-- Whether this iteration executed `KeepRunning = 0` (line 125). -/
  setKeepRunningFalse : Bool
  /-- Whether a `CHECK` macro made the thread `return`, leaving the
  worker loop for good. -/
  exitedThread : Bool
deriving DecidableEq, Repr

/-- One iteration of the `ImpedanceThread` loop body, lines 108-127.

Inputs: the flag state at the top of the iteration, and whether the device
raises an error at each call site: `errStart` for
`DSI_Headset_StartImpedanceDriver` (inside `CheckImpedance`), `errStop` for
`DSI_Headset_StopImpedanceDriver` (line 118), and `errOther` for an error
raised elsewhere (e.g. by `DSI_Headset_Idle` on the acquisition thread, which
shares the DSI error cell) that is still pending when line 123 runs.

Control flow traced from the source:
* line 109: if `startFlag`, call `CheckImpedance` — which prints a banner,
  calls `StartImpedanceDriver`, and on error its internal `CHECK` logs AND
  clears the error and returns -1 from `CheckImpedance`; back in the thread,
  the `CHECK` on line 110 then sees a clear error cell and falls through, and
  line 111 clears `startFlag`.
* line 117: if `stopFlag`, call `StopImpedanceDriver`; on error the `CHECK`
  on line 118 logs, clears, and returns from `ImpedanceThread` itself —
  before line 120 clears `stopFlag`; otherwise the banner is printed and
  `stopFlag` is cleared.
* line 123: `CheckError()` can only observe an error deposited outside the
  two call sites above (both were already cleared), in which case line 125
  sets `KeepRunning = 0`. -/
def impedanceCycleE (z : ZFlags) (errStart errStop errOther : Bool) :
    ImpCycleResult :=
  let startActs : List ImpAction :=
    if z.startFlag then [ImpAction.startImpedanceDriver] else []
  let startLogs : Nat := if z.startFlag && errStart then 1 else 0
  let z1 : ZFlags := { z with startFlag := false }
  let z1 : ZFlags := if z.startFlag then z1 else z
  if z.stopFlag then
    if errStop then
      { flags := z1
        actions := startActs ++ [ImpAction.stopImpedanceDriver]
        errorLogs := startLogs + 1
        setKeepRunningFalse := false
        exitedThread := true }
    else if errOther then
      { flags := { z1 with stopFlag := false }
        actions := startActs ++ [ImpAction.stopImpedanceDriver]
        errorLogs := startLogs + 1
        setKeepRunningFalse := true
        exitedThread := false }
    else
      { flags := { z1 with stopFlag := false }
        actions := startActs ++ [ImpAction.stopImpedanceDriver]
        errorLogs := startLogs
        setKeepRunningFalse := false
        exitedThread := false }
  else if errOther then
    { flags := z1
      actions := startActs
      errorLogs := startLogs + 1
      setKeepRunningFalse := true
      exitedThread := false }
  else
    { flags := z1
      actions := startActs
      errorLogs := startLogs
      setKeepRunningFalse := false
      exitedThread := false }

/-- Observable outcome of one iteration of the `DSI_Processing_Thread` loop
body (`dsi2lsl.c` lines 79-90). -/
structure AcqCycleResult where
  /-- Number of error reports printed (`CheckError` plus the explicit
  message on line 84). -/
  errorLogs : Nat
  /-- Whether this iteration executed `KeepRunning = 0` (line 85). -/
  setKeepRunningFalse : Bool
deriving DecidableEq, Repr

/-- One iteration of the `DSI_Processing_Thread` loop body, lines 79-90:
unless paused, call `DSI_Headset_Idle`; if the device reports an error
(`errIdle`), log it and set `KeepRunning = 0`; then sleep. -/
def dsiProcessingCycle (paused errIdle : Bool) : AcqCycleResult :=
  if paused then
    { errorLogs := 0, setKeepRunningFalse := false }
  else if errIdle then
    { errorLogs := 1, setKeepRunningFalse := true }
  else
    { errorLogs := 0, setKeepRunningFalse := false }

/-- The complete set of program operations that write the shared
`KeepRunning` cell after its initialisation to 1 (line 42):
the SIGINT handler `QuitHandler` (line 44), the acquisition thread's error
branch (line 85), and the impedance thread's error branch (line 125). -/
inductive KeepRunningWrite where
  | quitHandler
  | acquisitionThreadError
  | impedanceThreadError
deriving DecidableEq, Repr

/-- Effect of one `KeepRunning` write on the cell.  Every write site in the
source stores 0 (`false`); the value previously held is irrelevant. -/
def applyKeepRunningWrite : KeepRunningWrite → Bool → Bool
  | KeepRunningWrite.quitHandler, _ => false
  | KeepRunningWrite.acquisitionThreadError, _ => false
  | KeepRunningWrite.impedanceThreadError, _ => false

/-- Value of the `KeepRunning` cell after an arbitrary interleaving of the
program's write operations, starting from the value `k`.  Reads do not
change the cell, so an interleaving is fully described by its write
subsequence. -/
def keepRunningRun (k : Bool) (ws : List KeepRunningWrite) : Bool :=
  ws.foldl (fun kr w => applyKeepRunningWrite w kr) k

/-- Side effects a single iteration of the command loop can request besides
writing the impedance flags.  `analogReset` is the synchronous
`startAnalogReset` call of the `resetZ` branch (line 237).
`reportUnrecognized` is the vocabulary needed to STATE the spec's claim
that unknown tokens are reported; no branch of the source emits it. -/
inductive DispatchEffect where
  | analogReset
  | reportUnrecognized (tok : String)
deriving DecidableEq, Repr

/-- Processing of one input line by the command loop body
(`dsi2lsl.c` lines 218-238), after the newline has been stripped
(line 218).  The `command == NULL` test on line 220 compares an array to
NULL and is always false, so even the empty line reaches the `strcmp`
chain: `checkZOn` writes `stopFlag = 0` then `startFlag = 1`;
`checkZOff` writes `stopFlag = 1` then `startFlag = 0`; `resetZ` invokes
the analog reset inline; any other token falls through all branches and
nothing at all happens. -/
def dispatchLine (z : ZFlags) (line : String) : ZFlags × List DispatchEffect :=
  if line = "checkZOn" then
    ({ startFlag := true, stopFlag := false }, [])
  else if line = "checkZOff" then
    ({ startFlag := false, stopFlag := true }, [])
  else if line = "resetZ" then
    (z, [DispatchEffect.analogReset])
  else
    (z, [])

/-- The command loop of `main` (`dsi2lsl.c` lines 201-240), driven by the
list of lines available on stdin; reaching the end of the list is EOF
(`fgets` returning NULL, line 208), which executes `break`.  The loop guard
re-reads `KeepRunning` each iteration; no branch of the loop body writes
it, so it is threaded as an unchanging value `kr` here (the signal handler
and worker-thread writes are modelled by `keepRunningRun`).  Returns the
value of `KeepRunning` at loop exit, the final flag state, and the effects
performed. -/
def commandLoop (kr : Bool) (z : ZFlags) :
    List String → Bool × ZFlags × List DispatchEffect
  | [] => (kr, z, [])
  | line :: rest =>
      if kr then
        let p := dispatchLine z line
        let q := commandLoop kr p.1 rest
        (q.1, q.2.1, p.2 ++ q.2.2)
      else
        (kr, z, [])

/-- All flag states the dispatcher passes through (before, between and
after commands) when it processes the given lines starting from `z`. -/
def dispatchStates (z : ZFlags) : List String → List ZFlags
  | [] => [z]
  | line :: rest => z :: dispatchStates (dispatchLine z line).1 rest

/-- Position of the impedance worker inside the `startFlag` branch of its
loop (lines 109-112), between the shared-memory accesses that branch
performs:
`idle` — before the `if (params->startFlag)` test on line 109;
`acting` — test seen true, about to run `CheckImpedance` (line 110);
`clearing` — `CheckImpedance` done, about to store `params->startFlag = 0`
(line 111). -/
inductive WorkerPhase where
  | idle
  | acting
  | clearing
deriving DecidableEq, Repr

/-- Shared state for the start-request handshake between the dispatcher and
the impedance worker, instrumented with two event counters: `requests`
counts executions of the dispatcher's `zFLag.startFlag = 1` store
(line 228) and `starts` counts `DSI_Headset_StartImpedanceDriver` calls
(via `CheckImpedance`, line 110). -/
structure StartReqState where
  startFlag : Bool
  phase : WorkerPhase
  starts : Nat
  requests : Nat
deriving DecidableEq, Repr

/-- Atomic micro-steps of the two threads on the shared `startFlag` cell.
`requestStart` is the dispatcher's store of 1; the three worker steps are
the worker's test (line 109), its action (line 110) and its store of 0
(line 111), which the source performs as three separate accesses, not as
one atomic test-and-clear. -/
inductive StartReqStep where
  | requestStart
  | workerTest
  | workerAct
  | workerClear
deriving DecidableEq, Repr

/-- Effect of one micro-step.  A worker step taken out of phase is a no-op
(the scheduler simply has not brought the worker to that access yet). -/
def startReqStepFn : StartReqStep → StartReqState → StartReqState
  | StartReqStep.requestStart, s =>
      { s with startFlag := true, requests := s.requests + 1 }
  | StartReqStep.workerTest, s =>
      match s.phase with
      | WorkerPhase.idle =>
          if s.startFlag then { s with phase := WorkerPhase.acting } else s
      | _ => s
  | StartReqStep.workerAct, s =>
      match s.phase with
      | WorkerPhase.acting =>
          { s with starts := s.starts + 1, phase := WorkerPhase.clearing }
      | _ => s
  | StartReqStep.workerClear, s =>
      match s.phase with
      | WorkerPhase.clearing =>
          { s with startFlag := false, phase := WorkerPhase.idle }
      | _ => s

/-- State reached after an interleaving (list of micro-steps). -/
def startReqRun (s : StartReqState) (tr : List StartReqStep) : StartReqState :=
  tr.foldl (fun s st => startReqStepFn st s) s

/-- Program start: flag cleared (line 180), worker at the top of its loop,
no events yet. -/
def startReqInit : StartReqState :=
  { startFlag := false, phase := WorkerPhase.idle, starts := 0, requests := 0 }

/-- Inductive invariant of the handshake: the starts already performed,
plus the one start a worker in phase `acting` is committed to, plus the one
start a set flag promises to a worker that is back in `idle`, never exceed
the requests issued. -/
def startReqInv (s : StartReqState) : Prop :=
  s.starts + (if s.phase = WorkerPhase.acting then 1 else 0) +
      (if s.phase = WorkerPhase.idle ∧ s.startFlag = true then 1 else 0) ≤
    s.requests

/-- One fully serialized request-service round: the dispatcher issues a
request and the worker then runs its test, action and clear without
interference. -/
def serializedRound : List StartReqStep :=
  [StartReqStep.requestStart, StartReqStep.workerTest,
    StartReqStep.workerAct, StartReqStep.workerClear]

/-- An interleaving consisting of `n` serialized request-service rounds. -/
def serializedRounds : Nat → List StartReqStep
  | 0 => []
  | n + 1 => serializedRounds n ++ serializedRound

/-- The for loop of `OnSample` (`dsi2lsl.c` lines 326-328):
`sample[i] = DSI_Channel_GetSignal(...)` for `i = 0 .. n-1`, over the buffer
`b`.  `List.set` drops a store whose index is outside the buffer; in the C
source such a store would be out of bounds (the buffer is never grown, see
the C10 analysis), so the model is only exercised where the store is in
bounds. -/
def writeChannels (signalOf : Nat → Int) (n : Nat) (b : List Int) :
    List Int :=
  (List.range n).foldl (fun b i => b.set i (signalOf i)) b

/-- Observable outcome of one `OnSample` invocation (lines 320-330). -/
structure OnSampleResult where
  /-- The buffer handed to `lsl_push_sample_f` (line 329). -/
  pushed : List Int
  /-- The global `sample` pointer afterwards; `none` models NULL. -/
  buf : Option (List Int)
  /-- Whether the `malloc` on line 325 executed. -/
  allocated : Bool
deriving DecidableEq, Repr

/-- One `OnSample` callback invocation, lines 320-330: read the channel
count `n` the device reports now, allocate the global buffer (with
indeterminate contents, modelled as zeros) only if the pointer is NULL,
copy the `n` current readings into it, and push the buffer. -/
def onSample (n : Nat) (signalOf : Nat → Int) (buf : Option (List Int)) :
    OnSampleResult :=
  match buf with
  | none =>
      let b := writeChannels signalOf n (List.replicate n 0)
      { pushed := b, buf := some b, allocated := true }
  | some b0 =>
      let b := writeChannels signalOf n b0
      { pushed := b, buf := some b, allocated := false }

/-- Accumulated outcome of a run of `OnSample` invocations. -/
structure OnSampleRunResult where
  /-- The buffers pushed to the Sink, in invocation order. -/
  pushes : List (List Int)
  /-- The global `sample` pointer after the run. -/
  buf : Option (List Int)
  /-- How many times the `malloc` on line 325 executed during the run. -/
  allocs : Nat
deriving Repr

/-- A run of `OnSample` invocations; each element of `calls` supplies the
channel count the device reports at that invocation together with that
invocation's per-channel readings. -/
def onSampleRun (buf : Option (List Int)) :
    List (Nat × (Nat → Int)) → OnSampleRunResult
  | [] => { pushes := [], buf := buf, allocs := 0 }
  | c :: cs =>
      let r := onSample c.1 c.2 buf
      let rest := onSampleRun r.buf cs
      { pushes := r.pushed :: rest.pushes
        buf := rest.buf
        allocs := (if r.allocated then 1 else 0) + rest.allocs }

/-- The individual operations of the shutdown path: `lsl_destroy_outlet`
(`dsi2lsl.c` line 259) and the four device calls of `Finish`
(lines 397-419): `DSI_Headset_SetSampleCallback(h, NULL, NULL)` (line 400),
`DSI_Headset_StopDataAcquisition` (line 403), the drain
`DSI_Headset_Idle(h, 1.0)` (line 410), and `DSI_Headset_Delete`
(line 416). -/
inductive TeardownStep where
  | destroyOutlet
  | detachSampleCallback
  | stopDataAcquisition
  | drainIdle
  | deleteHeadset
deriving DecidableEq, Repr

/-- The `Finish` function (lines 397-419), with the `CHECK` that follows
each device call: the list of steps actually performed, in program order,
and the return value (-1 if a `CHECK` fired, else 0).  `errAt s` tells
whether the device call of step `s` raises a DSI error. -/
def finishRun (errAt : TeardownStep → Bool) : List TeardownStep × Int :=
  let s1 := [TeardownStep.detachSampleCallback]
  if errAt TeardownStep.detachSampleCallback then (s1, -1) else
  let s2 := s1 ++ [TeardownStep.stopDataAcquisition]
  if errAt TeardownStep.stopDataAcquisition then (s2, -1) else
  let s3 := s2 ++ [TeardownStep.drainIdle]
  if errAt TeardownStep.drainIdle then (s3, -1) else
  let s4 := s3 ++ [TeardownStep.deleteHeadset]
  if errAt TeardownStep.deleteHeadset then (s4, -1) else
  (s4, 0)

/-- The shutdown tail of `main` (lines 257-260): after the joins, destroy
the LSL outlet — unconditionally, with no error check — and then return
`Finish(h)`. -/
def mainTeardown (errAt : TeardownStep → Bool) : List TeardownStep × Int :=
  let f := finishRun errAt
  (TeardownStep.destroyOutlet :: f.1, f.2)

/-- Stated from the spec's words for comparison (refinement target, not
source code): the order the claim prescribes — detach the sample callback,
stop data acquisition, drain, release the Sink/outlet, and finally release
the device session. -/
def specTeardownSequence : List TeardownStep :=
  [TeardownStep.detachSampleCallback, TeardownStep.stopDataAcquisition,
    TeardownStep.drainIdle, TeardownStep.destroyOutlet,
    TeardownStep.deleteHeadset]

end Dsi2Lsl

namespace Dsi2Lsl

/-- C1: the claim as stated says that when both flags are set the worker
performs only the stop action, with no `startImpedanceDriver` call.  The
code (lines 109-121) tests `startFlag` first, so it performs the start
action too. -/
theorem C1_counterexample :
    ImpAction.startImpedanceDriver ∈
      (impedanceCycleE ⟨true, true⟩ false false false).actions ∧
    (impedanceCycleE ⟨true, true⟩ false false false).actions ≠
      [ImpAction.stopImpedanceDriver] := by
  decide

/-- C1 (amended): in an error-free cycle the worker performs the start
action (if requested) first and then the stop action (if requested), in
program order, clearing each flag after its action; with both flags set it
thus calls `startImpedanceDriver` and then `stopImpedanceDriver`, so the
stop is merely the LAST call of the cycle, not the only one. -/
theorem C1_amended (z : ZFlags) :
    (impedanceCycleE z false false false).actions =
      (if z.startFlag then [ImpAction.startImpedanceDriver] else []) ++
      (if z.stopFlag then [ImpAction.stopImpedanceDriver] else []) ∧
    (impedanceCycleE z false false false).flags = ⟨false, false⟩ ∧
    (impedanceCycleE ⟨true, true⟩ false false false).actions.getLast? =
      some ImpAction.stopImpedanceDriver := by
  obtain ⟨s, t⟩ := z
  cases s <;> cases t <;> decide

/-- C3: evaluation of the impedance worker at the failing inputs.  First
conjunct block: a device error during the STOP transition (`stopFlag` set,
`DSI_Headset_StopImpedanceDriver` errors) is logged, but the `CHECK` on
line 118 returns from the thread — the worker leaves its loop for good
WITHOUT executing `KeepRunning = 0` (and without even clearing `stopFlag`).
Second block: a device error during the START transition is logged inside
`CheckImpedance`, which also clears the DSI error cell, so no later check
fires: the worker neither requests a global stop nor leaves its loop.  Both
contradict the claim that every worker-detected device error escalates via
`requestStop` and that the worker never exits its loop without requesting a
global stop.  (The acquisition loop, by contrast, does behave as claimed:
third block.) -/
theorem C3_code_bug_eval :
    ((impedanceCycleE ⟨false, true⟩ false true false).errorLogs = 1 ∧
      (impedanceCycleE ⟨false, true⟩ false true false).exitedThread = true ∧
      (impedanceCycleE ⟨false, true⟩ false true false).setKeepRunningFalse
        = false ∧
      (impedanceCycleE ⟨false, true⟩ false true false).flags.stopFlag
        = true) ∧
    ((impedanceCycleE ⟨true, false⟩ true false false).errorLogs = 1 ∧
      (impedanceCycleE ⟨true, false⟩ true false false).exitedThread = false ∧
      (impedanceCycleE ⟨true, false⟩ true false false).setKeepRunningFalse
        = false) ∧
    (∀ e : Bool, (dsiProcessingCycle false e).setKeepRunningFalse = e ∧
      (dsiProcessingCycle false e).errorLogs = if e then 1 else 0) := by
  refine ⟨by decide, by decide, ?_⟩
  intro e
  cases e <;> exact ⟨rfl, rfl⟩

/-- C2: evaluation of the command loop at the failing input.  Feeding the
single line `exit` followed by EOF, the loop exits (EOF executes `break`,
line 211) with `KeepRunning` still `true`: no branch of the loop body
recognises the token `exit` (the `strcmp` chain on lines 225-235 tests only
`checkZOn`, `checkZOff`, `resetZ`) and the EOF branch does not clear
`KeepRunning` before breaking, so the joins that follow wait on worker
threads whose `while (KeepRunning == 1)` guards still hold. -/
theorem C2_code_bug_eval :
    commandLoop true ⟨false, false⟩ ["exit"] = (true, ⟨false, false⟩, []) ∧
    dispatchLine ⟨false, false⟩ "exit" = (⟨false, false⟩, []) ∧
    (∀ (lines : List String) (z : ZFlags),
      (commandLoop true z lines).1 = true) := by
  refine ⟨by decide, by decide, ?_⟩
  intro lines
  induction lines with
  | nil => intro z; rfl
  | cons l ls ih => intro z; simpa [commandLoop] using ih (dispatchLine z l).1

/-- C4: every write the program ever performs on `KeepRunning` after its
initialisation stores `false`, so once the cell holds `false` it holds
`false` after any further interleaving of operations of the signal handler,
the acquisition thread and the impedance thread — it is never observed
`true` again. -/
theorem C4_monotone_shutdown (ws : List KeepRunningWrite) :
    keepRunningRun false ws = false := by
  induction ws with
  | nil => rfl
  | cons w ws ih =>
      have hw : applyKeepRunningWrite w false = false := by cases w <;> rfl
      simpa [keepRunningRun, List.foldl_cons, hw] using ih

/-- Processing any single line cannot make both impedance flags set:
`checkZOn` and `checkZOff` each write one flag true and the other false,
and every other line leaves the flags untouched. -/
theorem dispatchLine_not_both (z : ZFlags) (line : String)
    (h : ¬(z.startFlag = true ∧ z.stopFlag = true)) :
    ¬((dispatchLine z line).1.startFlag = true ∧
      (dispatchLine z line).1.stopFlag = true) := by
  unfold dispatchLine
  split
  · simp
  · split
    · simp
    · split
      · exact h
      · exact h

/-- Every state the dispatcher reaches from a not-both-set state is again
not-both-set. -/
theorem dispatchStates_not_both (lines : List String) :
    ∀ z : ZFlags, ¬(z.startFlag = true ∧ z.stopFlag = true) →
    ∀ z' ∈ dispatchStates z lines,
      ¬(z'.startFlag = true ∧ z'.stopFlag = true) := by
  induction lines with
  | nil =>
      intro z hz z' hz'
      simp only [dispatchStates, List.mem_singleton] at hz'
      subst hz'
      exact hz
  | cons l ls ih =>
      intro z hz z' hz'
      simp only [dispatchStates, List.mem_cons] at hz'
      rcases hz' with rfl | hz'
      · exact hz
      · exact ih (dispatchLine z l).1 (dispatchLine_not_both z l hz) z' hz'

/-- C8: the claim says an unrecognized token is reported.  The source's
`strcmp` chain has no final `else`: an unrecognized token such as `foo`
produces no effect whatsoever — in particular no report. -/
theorem C8_counterexample :
    dispatchLine ⟨false, false⟩ "foo" = (⟨false, false⟩, []) ∧
    DispatchEffect.reportUnrecognized "foo" ∉
      (dispatchLine ⟨false, false⟩ "foo").2 := by
  decide

/-- C8 (amended): an input line that is none of the recognized tokens is
silently ignored — the flags are unchanged, no effect (neither a report
nor anything else) is produced, and the command loop simply continues with
the remaining input. -/
theorem C8_amended (z : ZFlags) (tok : String) (rest : List String)
    (h1 : tok ≠ "checkZOn") (h2 : tok ≠ "checkZOff") (h3 : tok ≠ "resetZ") :
    dispatchLine z tok = (z, []) ∧
    commandLoop true z (tok :: rest) = commandLoop true z rest := by
  have hd : dispatchLine z tok = (z, []) := by
    unfold dispatchLine
    rw [if_neg h1, if_neg h2, if_neg h3]
  exact ⟨hd, by simp [commandLoop, hd]⟩

/-- C8 witness: the concrete unrecognized token `foo`. -/
theorem C8_amended_witness :
    dispatchLine ⟨false, false⟩ "foo" = (⟨false, false⟩, []) ∧
    commandLoop true ⟨false, false⟩ ["foo"] =
      commandLoop true ⟨false, false⟩ [] :=
  C8_amended ⟨false, false⟩ "foo" [] (by decide) (by decide) (by decide)

/-- C9: `checkZOn` sets the start flag and clears the stop flag in the same
command, `checkZOff` does the opposite, whatever the previous flag state
was; consequently, starting from the initial state (both flags cleared on
lines 180-181), no state the dispatcher's own command writes produce ever
has both impedance flags set. -/
theorem C9_writer_cross_cancel :
    (∀ z : ZFlags,
      dispatchLine z "checkZOn" = (⟨true, false⟩, []) ∧
      dispatchLine z "checkZOff" = (⟨false, true⟩, [])) ∧
    (∀ (lines : List String) (z' : ZFlags),
      z' ∈ dispatchStates ⟨false, false⟩ lines →
      ¬(z'.startFlag = true ∧ z'.stopFlag = true)) := by
  constructor
  · intro z
    exact ⟨rfl, rfl⟩
  · intro lines z' hz'
    exact dispatchStates_not_both lines ⟨false, false⟩ (by simp) z' hz'

/-- Every micro-step preserves the handshake invariant. -/
theorem startReqInv_step (st : StartReqStep) (s : StartReqState)
    (h : startReqInv s) : startReqInv (startReqStepFn st s) := by
  obtain ⟨f, ph, a, r⟩ := s
  unfold startReqInv at h ⊢
  cases st <;> cases ph <;> cases f <;>
    simp_all [startReqStepFn] <;> omega

/-- The handshake invariant holds after any interleaving from an invariant
state. -/
theorem startReqInv_run (tr : List StartReqStep) :
    ∀ s : StartReqState, startReqInv s → startReqInv (startReqRun s tr) := by
  induction tr with
  | nil => intro s hs; exact hs
  | cons st tr ih =>
      intro s hs
      exact ih (startReqStepFn st s) (startReqInv_step st s hs)

/-- Running an interleaving split in two pieces runs the pieces in turn. -/
theorem startReqRun_append (s : StartReqState)
    (t1 t2 : List StartReqStep) :
    startReqRun s (t1 ++ t2) = startReqRun (startReqRun s t1) t2 := by
  simp [startReqRun, List.foldl_append]

/-- C5: the claim promises that, for ALL interleavings, a consumed flag
means every request got its start.  The worker's test, action and clear are
three separate accesses; in the interleaving where a second `checkZOn`
store lands between the worker's `CheckImpedance` call and its
`startFlag = 0` store, the clear consumes the second request without any
start for it: the flag ends cleared with 2 requests but only 1
`startImpedanceDriver` call. -/
theorem C5_counterexample :
    ¬ (∀ tr : List StartReqStep,
        (startReqRun startReqInit tr).startFlag = false →
        (startReqRun startReqInit tr).starts =
          (startReqRun startReqInit tr).requests) := by
  intro h
  have h2 := h [StartReqStep.requestStart, StartReqStep.workerTest,
      StartReqStep.workerAct, StartReqStep.requestStart,
      StartReqStep.workerClear] (by decide)
  exact absurd h2 (by decide)

/-- C5 (amended): delivery is at-most-once — over every interleaving of the
dispatcher's stores with the worker's test/act/clear, the number of
`startImpedanceDriver` calls never exceeds the number of requests — and it
is exactly-once whenever each request is fully serviced before the next one
is issued; but a request whose store lands between the worker's action and
its clearing store is lost, so "never zero once consumed" does not hold in
general. -/
theorem C5_amended :
    (∀ tr : List StartReqStep,
      (startReqRun startReqInit tr).starts ≤
        (startReqRun startReqInit tr).requests) ∧
    (∀ n : Nat, startReqRun startReqInit (serializedRounds n) =
      { startFlag := false, phase := WorkerPhase.idle,
        starts := n, requests := n }) := by
  constructor
  · intro tr
    have h := startReqInv_run tr startReqInit (by simp [startReqInv, startReqInit])
    unfold startReqInv at h
    omega
  · intro n
    induction n with
    | zero => rfl
    | succ n ih =>
        have hstep : ∀ k : Nat,
            startReqRun ⟨false, WorkerPhase.idle, k, k⟩ serializedRound =
              ⟨false, WorkerPhase.idle, k + 1, k + 1⟩ := fun k => rfl
        calc startReqRun startReqInit (serializedRounds (n + 1))
            = startReqRun (startReqRun startReqInit (serializedRounds n))
                serializedRound := by
              rw [serializedRounds, startReqRun_append]
          _ = ⟨false, WorkerPhase.idle, n + 1, n + 1⟩ := by
              rw [ih]; exact hstep n

/-- Unrolling the channel-copy loop: the last iteration stores the reading
of channel `n` at index `n`. -/
theorem writeChannels_succ (sig : Nat → Int) (n : Nat) (b : List Int) :
    writeChannels sig (n + 1) b = (writeChannels sig n b).set n (sig n) := by
  unfold writeChannels
  rw [List.range_succ, List.foldl_append]
  rfl

/-- The channel-copy loop never changes the buffer's length. -/
theorem writeChannels_length (sig : Nat → Int) (n : Nat) (b : List Int) :
    (writeChannels sig n b).length = b.length := by
  induction n with
  | zero => rfl
  | succ n ih => rw [writeChannels_succ, List.length_set, ih]

/-- Setting the cell just past a prefix replaces the head of the suffix. -/
theorem set_append_cons (l1 : List Int) (x a : Int) (t : List Int) :
    (l1 ++ x :: t).set l1.length a = l1 ++ a :: t := by
  induction l1 with
  | nil => rfl
  | cons y l ih =>
      show y :: (l ++ x :: t).set l.length a = y :: (l ++ a :: t)
      rw [ih]

/-- On a buffer of at least `n` cells, the copy loop writes the readings of
channels `0 .. n-1` in channel order and leaves the rest of the buffer
untouched. -/
theorem writeChannels_eq (sig : Nat → Int) :
    ∀ (n : Nat) (b : List Int), n ≤ b.length →
      writeChannels sig n b = (List.range n).map sig ++ b.drop n := by
  intro n
  induction n with
  | zero =>
      intro b h
      simp [writeChannels]
  | succ n ih =>
      intro b h
      have hn : n ≤ b.length := Nat.le_of_succ_le h
      have hlt : n < b.length := h
      rw [writeChannels_succ, ih b hn, List.drop_eq_getElem_cons hlt]
      have hlen : ((List.range n).map sig).length = n := by simp
      calc ((List.range n).map sig ++ b[n] :: b.drop (n + 1)).set n (sig n)
          = ((List.range n).map sig ++ b[n] :: b.drop (n + 1)).set
              ((List.range n).map sig).length (sig n) := by rw [hlen]
        _ = (List.range n).map sig ++ sig n :: b.drop (n + 1) :=
            set_append_cons _ _ _ _
        _ = (List.range (n + 1)).map sig ++ b.drop (n + 1) := by
            rw [List.range_succ]
            simp

/-- Starting from an already-allocated buffer of `n` cells, a run of
invocations with the device reporting `n` channels throughout pushes, at
every invocation, exactly the channel-order readout of that invocation, and
keeps the buffer at `n` cells. -/
theorem onSampleRun_fixed (n : Nat) (sigs : List (Nat → Int)) :
    ∀ b : List Int, b.length = n →
      (onSampleRun (some b) (sigs.map fun sig => (n, sig))).pushes =
        sigs.map (fun sig => (List.range n).map sig) ∧
      ∃ b', (onSampleRun (some b) (sigs.map fun sig => (n, sig))).buf =
          some b' ∧ b'.length = n := by
  induction sigs with
  | nil =>
      intro b hb
      exact ⟨rfl, b, rfl, hb⟩
  | cons sig rest ih =>
      intro b hb
      have hw : writeChannels sig n b = (List.range n).map sig := by
        rw [writeChannels_eq sig n b (le_of_eq hb.symm), ← hb,
          List.drop_length, List.append_nil]
      have hwlen : (writeChannels sig n b).length = n := by
        rw [writeChannels_length, hb]
      have hrest := ih (writeChannels sig n b) hwlen
      refine ⟨?_, hrest.2⟩
      simp only [List.map_cons, onSampleRun, onSample]
      rw [hrest.1, hw]

/-- C6: with the device reporting `n` channels, every buffer the callback
pushes to the Sink — from the very first invocation, which allocates the
buffer because the global pointer starts NULL, onwards — is exactly the
`n`-entry channel-order readout of that invocation's readings (so in
particular it has exactly `n` entries, entry `i` holding channel `i`'s
reading). -/
theorem C6_sample_fidelity (n : Nat) (sigs : List (Nat → Int)) :
    (onSampleRun none (sigs.map fun sig => (n, sig))).pushes =
      sigs.map (fun sig => (List.range n).map sig) ∧
    ∀ p ∈ (onSampleRun none (sigs.map fun sig => (n, sig))).pushes,
      p.length = n := by
  have hmain :
      (onSampleRun none (sigs.map fun sig => (n, sig))).pushes =
        sigs.map (fun sig => (List.range n).map sig) := by
    cases sigs with
    | nil => rfl
    | cons sig rest =>
        have hrep : (List.replicate n (0 : Int)).length = n :=
          List.length_replicate n 0
        have hdrop : (List.replicate n (0 : Int)).drop n = [] := by simp
        have hw : writeChannels sig n (List.replicate n 0) =
            (List.range n).map sig := by
          rw [writeChannels_eq sig n _ (le_of_eq hrep.symm), hdrop,
            List.append_nil]
        have hwlen : (writeChannels sig n (List.replicate n 0)).length = n := by
          rw [writeChannels_length, hrep]
        have hrest := onSampleRun_fixed n rest _ hwlen
        simp only [List.map_cons, onSampleRun, onSample]
        rw [hrest.1, hw]
  refine ⟨hmain, ?_⟩
  intro p hp
  rw [hmain] at hp
  obtain ⟨sig, _, rfl⟩ := List.mem_map.mp hp
  simp

/-- C6 witness: a 3-channel device whose readings are the channel indices;
the single pushed buffer is a member of the pushes and has 3 entries. -/
theorem C6_sample_fidelity_witness :
    ((0 : Int) :: 1 :: 2 :: []) ∈
      (onSampleRun none
        ([fun i : Nat => (i : Int)].map fun sig => (3, sig))).pushes ∧
    ((0 : Int) :: 1 :: 2 :: []).length = 3 :=
  ⟨by decide,
    (C6_sample_fidelity 3 [fun i : Nat => (i : Int)]).2 ((0 : Int) :: 1 :: 2 :: [])
      (by decide)⟩

/-- Starting from an already-allocated buffer, no later invocation ever
allocates again, and the buffer's length never changes — whatever channel
counts the device reports later. -/
theorem onSampleRun_no_realloc (cs : List (Nat × (Nat → Int))) :
    ∀ b : List Int,
      (onSampleRun (some b) cs).allocs = 0 ∧
      ∃ b', (onSampleRun (some b) cs).buf = some b' ∧
        b'.length = b.length := by
  induction cs with
  | nil =>
      intro b
      exact ⟨rfl, b, rfl, rfl⟩
  | cons c rest ih =>
      intro b
      have hlen : (writeChannels c.2 c.1 b).length = b.length :=
        writeChannels_length c.2 c.1 b
      have hrest := ih (writeChannels c.2 c.1 b)
      refine ⟨?_, ?_⟩
      · simp only [onSampleRun, onSample]
        rw [hrest.1]
        simp
      · obtain ⟨b', hb', hb'len⟩ := hrest.2
        exact ⟨b', hb', by rw [hb'len, hlen]⟩

/-- C10: over any nonempty run starting from the NULL pointer, the `malloc`
on line 325 runs exactly once — at the first invocation, sized to the
channel count reported at that moment — and every later invocation reuses
that same allocation: the buffer length stays the first invocation's
channel count no matter what counts the device reports afterwards.  The
last conjunct isolates the guard itself: an invocation allocates exactly
when the global pointer is NULL. -/
theorem C10_alloc_once (c : Nat × (Nat → Int))
    (cs : List (Nat × (Nat → Int))) :
    (onSampleRun none (c :: cs)).allocs = 1 ∧
    (∃ b, (onSampleRun none (c :: cs)).buf = some b ∧ b.length = c.1) ∧
    (∀ (k : Nat) (sig : Nat → Int) (b : List Int),
      (onSample k sig (some b)).allocated = false ∧
      (onSample k sig (none : Option (List Int))).allocated = true) := by
  have hlen : (writeChannels c.2 c.1 (List.replicate c.1 0)).length = c.1 := by
    rw [writeChannels_length, List.length_replicate]
  have hrest := onSampleRun_no_realloc cs (writeChannels c.2 c.1 (List.replicate c.1 0))
  refine ⟨?_, ?_, ?_⟩
  · simp only [onSampleRun, onSample]
    rw [hrest.1]
    simp
  · obtain ⟨b', hb', hb'len⟩ := hrest.2
    exact ⟨b', hb', by rw [hb'len, hlen]⟩
  · intro k sig b
    exact ⟨rfl, rfl⟩

/-- C7: the claim prescribes detaching the callback first and releasing the
outlet only after the drain window; the code (lines 257-260) destroys the
LSL outlet before calling `Finish`, so the outlet release comes FIRST, not
fourth. -/
theorem C7_counterexample :
    (mainTeardown (fun _ => false)).1 ≠ specTeardownSequence ∧
    (mainTeardown (fun _ => false)).1.head? =
      some TeardownStep.destroyOutlet := by
  decide

/-- C7 (amended): on the error-free shutdown path the teardown performs, in
exactly this order: release the Sink/outlet, detach the sample callback,
stop data acquisition, run the drain window, and finally release the device
session — i.e. the outlet release happens first rather than between the
drain and the session release; the four device steps keep the claimed
relative order. -/
theorem C7_amended :
    mainTeardown (fun _ => false) =
      ([TeardownStep.destroyOutlet, TeardownStep.detachSampleCallback,
        TeardownStep.stopDataAcquisition, TeardownStep.drainIdle,
        TeardownStep.deleteHeadset], 0) := by
  decide

/-- C9 witness: after `checkZOn` the dispatcher is in state
(start = true, stop = false), which indeed does not have both flags set. -/
theorem C9_witness :
    (⟨true, false⟩ : ZFlags) ∈
      dispatchStates ⟨false, false⟩ ["checkZOn"] ∧
    ¬((⟨true, false⟩ : ZFlags).startFlag = true ∧
      (⟨true, false⟩ : ZFlags).stopFlag = true) :=
  ⟨by decide,
    C9_writer_cross_cancel.2 ["checkZOn"] ⟨true, false⟩ (by decide)⟩

end Dsi2Lsl
